import Mathlib

/-!
Shallow embedding of the rule-based support-ticket dialogue engine
(`processAIMessage` and its helpers from `src/routes/health.ts`, together
with the `ConversationStep` / `TicketCategory` enumerations from the shared
types module).  JavaScript strings are modelled as Lean `String`
(lists of characters); the JavaScript regular expressions used by the engine
are translated into explicit, executable matching functions with the same
search semantics (leftmost position, alternation order, greedy `\s+`,
lazy bounded capture).  `new Date().toISOString()` is modelled by an explicit
`now : String` parameter, the only effect the function performs.
-/

namespace SupportEngine

/-- The `ConversationStep` enumeration (types module). -/
inductive ConversationStep where
  | GREETING
  | COLLECT_NAME
  | COLLECT_ISSUE
  | CLARIFY_DETAILS
  | SUGGEST_CATEGORY
  | CONFIRM_CATEGORY
  | FINAL_CONFIRMATION
  | TICKET_CREATED
  | ERROR
deriving DecidableEq, BEq, Repr

/-- The `TicketCategory` enumeration (types module). -/
inductive TicketCategory where
  | TECHNICAL
  | BILLING
  | ACCOUNT
  | FEATURE_REQUEST
  | BUG_REPORT
  | GENERAL
  | OTHER
deriving DecidableEq, BEq, Repr

/-- The `MessageRole` enumeration (types module). -/
inductive MessageRole where
  | user
  | assistant
  | system
deriving DecidableEq, BEq, Repr

/- ---------- JavaScript string primitives, on lists of characters ---------- -/

/-- JavaScript `\w`: ASCII letter, digit or underscore. -/
def isWordChar (c : Char) : Bool :=
  c.isAlphanum || c = '_'

/-- Lower-case every character (`String.prototype.toLowerCase` on ASCII). -/
def toLowerL (l : List Char) : List Char :=
  l.map Char.toLower

/-- `String.prototype.trim`: strip whitespace from both ends. -/
def trimL (l : List Char) : List Char :=
  ((l.dropWhile Char.isWhitespace).reverse.dropWhile Char.isWhitespace).reverse

/-- `needle` occurs at the start of `l` (used by the translated regexes). -/
def startsWithL : List Char → List Char → Bool
  | _, [] => true
  | [], _ :: _ => false
  | a :: as, b :: bs => a = b && startsWithL as bs

/-- Case-insensitive variant: `pat` is given lower-case. -/
def startsWithCIL (l pat : List Char) : Bool :=
  startsWithL (toLowerL l) pat

/-- `String.prototype.includes`: `needle` occurs somewhere in `hay`. -/
def containsSubL (needle : List Char) : List Char → Bool
  | [] => needle.isEmpty
  | c :: t => startsWithL (c :: t) needle || containsSubL needle t

/-- `replace(/\s+/g, ' ')`: collapse each whitespace run to one space. -/
def collapseWsL : List Char → List Char
  | [] => []
  | c :: t =>
    let r := collapseWsL t
    if c.isWhitespace then
      match r with
      | ' ' :: _ => r
      | _ => ' ' :: r
    else c :: r

/-- `String.prototype.split(sep)` (single-character separator, keeps empties). -/
def splitCharL (sep : Char) : List Char → List (List Char)
  | [] => [[]]
  | c :: t =>
    let r := splitCharL sep t
    if c = sep then [] :: r
    else
      match r with
      | h :: t2 => (c :: h) :: t2
      | [] => [[c]]

/-- JavaScript truthiness of an optional string (`undefined` and `""` are falsy). -/
def jsTruthy : Option String → Bool
  | none => false
  | some s => !(s = "")

/-- JavaScript template interpolation of a possibly-`undefined` string. -/
def jsStr (o : Option String) : String :=
  o.getD "undefined"

/-- JavaScript `x || fallback` on an optional string (`""` is falsy). -/
def jsOr (o : Option String) (fallback : String) : String :=
  match o with
  | some s => if s = "" then fallback else s
  | none => fallback

/- ---------- Category detection (`CATEGORY_PATTERNS`, `detectCategory`) ---------- -/

/-- The five fixed keyword lists, in declaration order (`CATEGORY_PATTERNS`). -/
def CATEGORY_PATTERNS : List (TicketCategory × List String) :=
  [ (.TECHNICAL,
      ["bug", "error", "crash", "broken", "not working", "issue", "problem",
       "glitch", "freeze", "slow", "performance", "loading", "timeout",
       "connection", "server", "database", "api", "sync", "refresh"]),
    (.BILLING,
      ["payment", "charge", "billing", "invoice", "refund", "subscription",
       "price", "cost", "credit card", "transaction", "money", "plan",
       "upgrade", "downgrade", "cancel", "receipt"]),
    (.ACCOUNT,
      ["login", "password", "access", "account", "profile", "settings",
       "email", "username", "forgot", "reset", "security", "verification",
       "signin", "logout", "permissions"]),
    (.FEATURE_REQUEST,
      ["feature", "request", "suggestion", "improvement", "enhancement",
       "add", "new", "would like", "could you", "wish", "hope",
       "functionality", "option", "ability"]),
    (.BUG_REPORT,
      ["bug", "error message", "unexpected", "wrong", "incorrect",
       "mistake", "fault", "defect", "glitch", "malfunction"]) ]

/-- Number of keywords of `pats` occurring in `lowerText`. -/
def countMatches (pats : List String) (lowerText : List Char) : Nat :=
  (pats.filter (fun p => containsSubL p.data lowerText)).length

/-- `detectCategory`: fold over the category lists keeping the first strict
maximum of match counts; zero matches yield `GENERAL`. -/
def detectCategory (text : String) : TicketCategory :=
  let lowerText := toLowerL text.data
  let r := CATEGORY_PATTERNS.foldl
    (fun (acc : Nat × TicketCategory) entry =>
      let mcount := countMatches entry.2 lowerText
      if mcount > acc.1 then (mcount, entry.1) else acc)
    (0, TicketCategory.GENERAL)
  if r.1 > 0 then r.2 else TicketCategory.GENERAL

/-- `getCategoryDisplayName`: fixed lookup table. -/
def getCategoryDisplayName (category : TicketCategory) : String :=
  match category with
  | .TECHNICAL => "Technical Issue"
  | .BILLING => "Billing & Payments"
  | .ACCOUNT => "Account Management"
  | .FEATURE_REQUEST => "Feature Request"
  | .BUG_REPORT => "Bug Report"
  | .GENERAL => "General Inquiry"
  | .OTHER => "Other"

/-- `displayNames[category] || 'Unknown'` where `category` may be `undefined`. -/
def displayNameOpt (category : Option TicketCategory) : String :=
  match category with
  | some c => getCategoryDisplayName c
  | none => "Unknown"

/- ---------- Affirmative / negative detectors ---------- -/

/-- The fixed affirmative phrase list of `isAffirmative`. -/
def affirmativePhrases : List String :=
  ["yes", "yeah", "yep", "yup", "sure", "correct", "right", "exactly",
   "that's right", "sounds good", "looks good", "ok", "okay", "k",
   "absolutely", "definitely", "of course", "perfect", "great",
   "let's do it", "lets do it", "go ahead", "proceed", "continue",
   "create it", "create the ticket", "make the ticket", "submit it",
   "confirm", "approved", "good to go", "all good", "that works"]

/-- The fixed negative phrase list of `isNegative`. -/
def negativePhrases : List String :=
  ["no", "nope", "nah", "not", "wrong", "incorrect", "different",
   "that's wrong", "not right", "not correct", "not quite",
   "don't", "dont", "stop", "cancel", "abort", "nevermind",
   "never mind", "wait", "hold on", "not yet", "not ready"]

/-- `isAffirmative`: exact match or substring containment of a phrase. -/
def isAffirmative (input : String) : Bool :=
  let lowerInput := trimL (toLowerL input.data)
  affirmativePhrases.any (fun phrase =>
    lowerInput = phrase.data
    || containsSubL phrase.data lowerInput
    || (phrase.length > 3 && containsSubL phrase.data lowerInput))

/-- `isNegative`: exact match or substring containment of a phrase. -/
def isNegative (input : String) : Bool :=
  let lowerInput := trimL (toLowerL input.data)
  negativePhrases.any (fun phrase =>
    lowerInput = phrase.data
    || containsSubL phrase.data lowerInput
    || (phrase.length > 3 && containsSubL phrase.data lowerInput))

/- ---------- Email validation (`/^[^\s@]+@[^\s@]+\.[^\s@]+$/`) ---------- -/

/-- Character class `[^\s@]`. -/
def isEmailCharL (c : Char) : Bool :=
  !c.isWhitespace && c ≠ '@'

/-- Matches `\.[^\s@]+$`. -/
def dotTailL : List Char → Bool
  | '.' :: rest => !rest.isEmpty && rest.all isEmailCharL
  | _ => false

/-- Matches `[^\s@]+\.[^\s@]+$`. -/
def domainPartL : List Char → Bool
  | [] => false
  | c :: rest => isEmailCharL c && (dotTailL rest || domainPartL rest)

/-- Matches `^[^\s@]+@[^\s@]+\.[^\s@]+$` (the engine's email regex). -/
def localAtDomainL : List Char → Bool
  | [] => false
  | c :: rest =>
    isEmailCharL c &&
      ((match rest with
        | '@' :: r => domainPartL r
        | _ => false)
       || localAtDomainL rest)

/-- `emailRegex.test` on a whole string. -/
def emailRegexTest (s : String) : Bool :=
  localAtDomainL s.data

/- ---------- Name extraction (`extractNameFromInput`) ---------- -/

/-- Result record of `extractNameFromInput`. -/
structure NameResult where
  name : String
  isSentence : Bool
  needsClarification : Bool
deriving DecidableEq, Repr

/-- Greeting alternatives of the regex `^(hi|hello|hey|good morning|good afternoon|good evening)`. -/
def greetingStarts : List (List Char) :=
  ["hi".data, "hello".data, "hey".data,
   "good morning".data, "good afternoon".data, "good evening".data]

/-- Self-introduction alternatives of `\b(my name is|i am|i'm|call me|name's)\s+`. -/
def introPhrases : List (List Char) :=
  ["my name is".data, "i am".data, "i'm".data, "call me".data, "name's".data]

/-- Conjunction / request alternatives of `\b(and|but|so|because|i need|i want|please|help)`. -/
def conjPhrases : List (List Char) :=
  ["and".data, "but".data, "so".data, "because".data,
   "i need".data, "i want".data, "please".data, "help".data]

/-- A `\b`-anchored alternative from `phrases` matches at the present
position (previous character `prev`), optionally requiring `\s` right after. -/
def matchHereB (reqWs : Bool) (phrases : List (List Char)) (prev : Option Char)
    (l : List Char) : Bool :=
  (match prev with
   | none => true
   | some c => !(isWordChar c)) &&
  phrases.any (fun p =>
    startsWithL l p &&
    (if reqWs then
       match l.drop p.length with
       | c :: _ => c.isWhitespace
       | [] => false
     else true))

/-- Search every position of `l` for a `\b`-anchored alternative (the
`.test` semantics of the second and third sentence patterns). -/
def boundSearchAux (reqWs : Bool) (phrases : List (List Char)) (prev : Option Char) :
    List Char → Bool
  | [] => matchHereB reqWs phrases prev []
  | c :: t =>
    matchHereB reqWs phrases prev (c :: t) || boundSearchAux reqWs phrases (some c) t

/-- The four `sentencePatterns` tested against the lower-cased input. -/
def sentenceTest (lowerInput : List Char) : Bool :=
  greetingStarts.any (fun g => startsWithL lowerInput g)
  || boundSearchAux true introPhrases none lowerInput
  || boundSearchAux false conjPhrases none lowerInput
  || lowerInput.any (fun c => c = '.' || c = '!' || c = '?')

/-- Capture class `[a-zA-Z\s\-'\.]` of the name patterns. -/
def nameClassChar (c : Char) : Bool :=
  c.isAlpha || c.isWhitespace || c = '-' || c = '\'' || c = '.'

/-- Terminator `(?:\s+and|\s+,|\s*\.|$)` of the name patterns (case-insensitive). -/
def nameTermOk (l : List Char) : Bool :=
  let w := l.takeWhile Char.isWhitespace
  let r := l.dropWhile Char.isWhitespace
  (!w.isEmpty && (startsWithCIL r "and".data || startsWithL r [',']))
  || startsWithL r ['.']
  || l.isEmpty

/-- Lazy bounded capture `([a-zA-Z\s\-'\.]{2,30}?)` followed by the
terminator: the shortest length from 2 to 30 that lets the rest match. -/
def lazyNameCapture (l : List Char) : Option (List Char) :=
  (List.range 29).findSome? (fun k =>
    let j := k + 2
    let pre := l.take j
    if pre.length = j && pre.all nameClassChar && nameTermOk (l.drop j)
    then some pre else none)

/-- `\s+` (greedy, with backtracking) followed by the lazy capture. -/
def wsThenCapture (l : List Char) : Option (List Char) :=
  let wmax := (l.takeWhile Char.isWhitespace).length
  (List.range wmax).findSome? (fun i => lazyNameCapture (l.drop (wmax - i)))

/-- First name pattern
`/(?:my name is|i am|i'm|call me|name's)\s+([a-zA-Z\s\-'\.]{2,30}?)(?:\s+and|\s+,|\s*\.|$)/i`:
leftmost position wins, alternatives tried in declaration order. -/
def namePattern1 : List Char → Option (List Char)
  | [] => none
  | c :: t =>
    (introPhrases.findSome? (fun alt =>
      if startsWithCIL (c :: t) alt then wsThenCapture ((c :: t).drop alt.length)
      else none))
    <|> namePattern1 t

/-- Tail of the second (anchored) name pattern after the optional comma:
`\s+(?:my name is|i am|i'm)\s+(capture)(terminator)`. -/
def namePattern2Tail (r : List Char) : Option (List Char) :=
  let wn := (r.takeWhile Char.isWhitespace).length
  if wn = 0 then none
  else
    let r3 := r.drop wn
    (["my name is".data, "i am".data, "i'm".data]).findSome? (fun alt =>
      if startsWithCIL r3 alt then wsThenCapture (r3.drop alt.length) else none)

/-- Second name pattern
`/^(?:hi|hello|hey),?\s+(?:my name is|i am|i'm)\s+([a-zA-Z\s\-'\.]{2,30}?)(?:\s+and|\s+,|\s*\.|$)/i`. -/
def namePattern2 (l : List Char) : Option (List Char) :=
  (["hi".data, "hello".data, "hey".data]).findSome? (fun g =>
    if startsWithCIL l g then
      match l.drop g.length with
      | ',' :: r2 => namePattern2Tail r2
      | r => namePattern2Tail r
    else none)

/-- Cleaning applied to a regex capture:
`.trim().replace(/[^\w\s\-'\.]/g, '').replace(/\s+/g, ' ')`. -/
def cleanCapture (m : List Char) : List Char :=
  collapseWsL ((trimL m).filter
    (fun c => isWordChar c || c.isWhitespace || c = '-' || c = '\'' || c = '.'))

/-- One loop iteration of the name-pattern loop: a match whose cleaned
capture has length 2–30 is returned, otherwise the loop continues. -/
def acceptCapture (res : Option (List Char)) : Option String :=
  res.bind (fun m =>
    let en := cleanCapture m
    if 2 ≤ en.length && en.length ≤ 30 then some (String.mk en) else none)

/-- `extractNameFromInput` (handles sentences like "Hi, my name is John Smith"). -/
def extractNameFromInput (input : String) : NameResult :=
  let cleanInput := trimL input.data
  let lowerInput := toLowerL cleanInput
  let isSentence :=
    sentenceTest lowerInput || (splitCharL ' ' cleanInput).length > 3
  if isSentence then
    match acceptCapture (namePattern1 cleanInput) <|>
          acceptCapture (namePattern2 cleanInput) with
    | some extractedName =>
      { name := extractedName, isSentence := true, needsClarification := true }
    | none =>
      { name := "", isSentence := true, needsClarification := true }
  else
    let cleanedName := (collapseWsL (cleanInput.filter
      (fun c => isWordChar c || c.isWhitespace || c = '-' || c = '\'' || c = '.'))).take 50
    { name := String.mk cleanedName, isSentence := false,
      needsClarification := cleanedName.length < 2 }

/- ---------- Conversation data model ---------- -/

/-- The `collectedData` accumulator record of `ConversationState` (all fields
optional), plus the transient `potentialName` the GREETING handler grafts on. -/
structure CollectedData where
  userName : Option String := none
  userEmail : Option String := none
  issueDescription : Option String := none
  issueTitle : Option String := none
  suggestedCategory : Option TicketCategory := none
  confirmedCategory : Option TicketCategory := none
  additionalDetails : Option (List String) := none
  potentialName : Option String := none
deriving DecidableEq, Repr

/-- One chat message. -/
structure Message where
  id : String
  role : MessageRole
  content : String
  timestamp : String
  metadata : Option (List (String × String)) := none
deriving DecidableEq, Repr

/-- `ConversationState`: the state snapshot threaded through the engine. -/
structure ConversationState where
  id : String
  currentStep : ConversationStep
  collectedData : CollectedData
  messages : List Message
  isComplete : Bool
  createdTicketId : Option String := none
  startedAt : String
  completedAt : Option String := none
deriving DecidableEq, Repr

/-- The `type` discriminator of `AIResponse`. -/
inductive AIResponseType where
  | question
  | clarification
  | category_suggestion
  | confirmation
  | success
  | error
  | typing
deriving DecidableEq, Repr

/-- `AIResponse`: the assistant reply produced each turn. -/
structure AIResponse where
  type : AIResponseType
  content : String
  nextStep : Option ConversationStep := none
  suggestions : Option (List String) := none
  categoryOptions : Option (List String) := none
  requiresInput : Bool
  metadata : Option (List (String × Bool)) := none
deriving DecidableEq, Repr

/-- `AIProcessResult`: what `processAIMessage` returns. -/
structure AIProcessResult where
  assistantResponse : AIResponse
  updatedConversation : ConversationState
  suggestedCategory : Option TicketCategory := none
deriving DecidableEq, Repr

/- ---------- Prompt templates (`AI_PROMPTS`) ---------- -/

/-- `AI_PROMPTS.GREETING`. -/
def promptGreeting : String :=
  "Hi there! 👋 I'm here to help you create a support ticket. To get started, could you please tell me your name?"

/-- `AI_PROMPTS.COLLECT_ISSUE`. -/
def promptCollectIssue (name : String) : String :=
  "Nice to meet you, " ++ name ++ "! Now, could you please describe the issue you're experiencing? Be as detailed as possible - this will help our support team assist you better."

/-- `AI_PROMPTS.CLARIFY_DETAILS`. -/
def promptClarifyDetails : String :=
  "Thank you for that information. Could you provide any additional details that might help us understand the issue better? For example, when did this start happening, or what steps led to this issue?"

/-- `AI_PROMPTS.SUGGEST_CATEGORY`. -/
def promptSuggestCategory (suggestedCategory : TicketCategory) : String :=
  "Based on your description, this seems like a **" ++ getCategoryDisplayName suggestedCategory ++ "** issue. Does this sound right to you? You can confirm this category or let me know if you think it should be categorized differently."

/-- `AI_PROMPTS.COLLECT_EMAIL`. -/
def promptCollectEmail : String :=
  "Great! To complete your support ticket, could you please provide your email address? This will help our support team get back to you."

/-- `AI_PROMPTS.FINAL_CONFIRMATION` (the `category` argument passes through
`getCategoryDisplayName`, an absent `userEmail` renders as "Not provided"). -/
def promptFinalConfirmation (userName : String) (issueDescription : String)
    (category : Option TicketCategory) (userEmail : Option String) : String :=
  "Perfect! Let me confirm the details for your support ticket:\n\n**Name:** "
    ++ userName ++ "\n**Email:** " ++ jsOr userEmail "Not provided"
    ++ "\n**Issue:** " ++ issueDescription ++ "\n**Category:** "
    ++ displayNameOpt category
    ++ "\n\nDoes everything look correct? If yes, I'll create your support ticket right away!"

/-- `AI_PROMPTS.TICKET_CREATED`. -/
def promptTicketCreated (ticketId : String) : String :=
  "✅ Great! Your support ticket has been created successfully.\n\n**Ticket ID:** "
    ++ ticketId
    ++ "\n\nOur support team will review your ticket and get back to you soon. You can reference this ticket ID in any future communications.\n\nIs there anything else I can help you with today?"

/-- `AI_PROMPTS.ERROR`. -/
def promptError : String :=
  "I apologize, but something went wrong. Let me try to help you in a different way. Could you please tell me what you were trying to do?"

/-- `AI_PROMPTS.INVALID_INPUT`. -/
def promptInvalidInput : String :=
  "I didn't quite understand that. Could you please rephrase your response?"

/- ---------- Step machine (`getNextStep`) ---------- -/

/-- `getNextStep`: the pure transition function. -/
def getNextStep (currentStep : ConversationStep) (_userInput : String)
    (collectedData : CollectedData) : ConversationStep :=
  match currentStep with
  | .GREETING => .COLLECT_ISSUE
  | .COLLECT_ISSUE => .CLARIFY_DETAILS
  | .CLARIFY_DETAILS => .SUGGEST_CATEGORY
  | .SUGGEST_CATEGORY => .CONFIRM_CATEGORY
  | .CONFIRM_CATEGORY =>
    if !jsTruthy collectedData.userEmail then .COLLECT_NAME else .FINAL_CONFIRMATION
  | .COLLECT_NAME => .FINAL_CONFIRMATION
  | .FINAL_CONFIRMATION => .TICKET_CREATED
  | _ => .ERROR

/- ---------- Turn processor (`processAIMessage`) ---------- -/

/-- `trim().replace(/\s+/g, ' ').substring(0, n)` as used by the issue and
details handlers. -/
def sanitizeInput (input : String) (n : Nat) : String :=
  String.mk ((collapseWsL (trimL input.data)).take n)

/-- The GREETING case of the `switch`. -/
def greetingCase (userInput : String) (updatedData : CollectedData) :
    CollectedData × AIResponse × ConversationStep × Option TicketCategory :=
  let nameResult := extractNameFromInput userInput
  if nameResult.needsClarification then
    if !(nameResult.name = "") && nameResult.isSentence then
      ({ updatedData with potentialName := some nameResult.name },
       { type := .clarification,
         content := "I think I heard your name is \"" ++ nameResult.name
           ++ "\". Is that correct? If not, please just tell me your name.",
         suggestions := some ["Yes, that's correct", "No, my name is..."],
         requiresInput := true },
       .GREETING, none)
    else
      (updatedData,
       { type := .question,
         content :=
           if nameResult.isSentence then
             "I'd love to help you! Could you please just tell me your name first?"
           else "Please provide your name (at least 2 characters).",
         requiresInput := true },
       .GREETING, none)
  else if jsTruthy updatedData.potentialName
          && (isAffirmative userInput || isNegative userInput) then
    if isAffirmative userInput then
      let updatedData2 :=
        { updatedData with userName := updatedData.potentialName, potentialName := none }
      let ns := getNextStep .GREETING userInput updatedData2
      (updatedData2,
       { type := .question,
         content := promptCollectIssue (jsStr updatedData2.userName),
         nextStep := some ns, requiresInput := true },
       ns, none)
    else
      ({ updatedData with potentialName := none },
       { type := .question, content := "No problem! Please tell me your name.",
         requiresInput := true },
       .GREETING, none)
  else
    let updatedData2 :=
      { updatedData with
        userName := some nameResult.name,
        potentialName :=
          if jsTruthy updatedData.potentialName then none
          else updatedData.potentialName }
    let ns := getNextStep .GREETING userInput updatedData2
    (updatedData2,
     { type := .question, content := promptCollectIssue nameResult.name,
       nextStep := some ns, requiresInput := true },
     ns, none)

/-- The COLLECT_ISSUE case of the `switch`. -/
def collectIssueCase (userInput : String) (updatedData : CollectedData) :
    CollectedData × AIResponse × ConversationStep × Option TicketCategory :=
  let cleanedIssue := sanitizeInput userInput 1000
  if cleanedIssue.length < 10 then
    (updatedData,
     { type := .question,
       content := "Please provide more details about your issue (at least 10 characters).",
       requiresInput := true },
     .COLLECT_ISSUE, none)
  else
    let title0 := String.mk (((splitCharL '.' cleanedIssue.data).headD []).take 100)
    let updatedData2 :=
      { updatedData with
        issueDescription := some cleanedIssue,
        issueTitle := some (if title0 = "" then "Support Request" else title0) }
    let ns := getNextStep .COLLECT_ISSUE userInput updatedData2
    (updatedData2,
     { type := .question, content := promptClarifyDetails,
       nextStep := some ns, requiresInput := true },
     ns, none)

/-- The CLARIFY_DETAILS case of the `switch`. -/
def clarifyDetailsCase (userInput : String) (updatedData : CollectedData) :
    CollectedData × AIResponse × ConversationStep × Option TicketCategory :=
  let cleanedDetails := sanitizeInput userInput 500
  let saysSkip := containsSubL "skip".data (toLowerL userInput.data)
  if cleanedDetails.length < 5 && !saysSkip then
    (updatedData,
     { type := .question,
       content := "Please provide some additional details (at least 5 characters), or type \"skip\" if you have nothing to add.",
       requiresInput := true },
     .CLARIFY_DETAILS, none)
  else
    let updatedData1 :=
      if updatedData.additionalDetails.isNone then
        { updatedData with additionalDetails := some [] }
      else updatedData
    let updatedData2 :=
      if !saysSkip && decide (cleanedDetails.length ≥ 5) then
        { updatedData1 with
          additionalDetails :=
            some ((updatedData1.additionalDetails.getD []) ++ [cleanedDetails]) }
      else updatedData1
    let allText := jsStr updatedData2.issueDescription ++ " "
      ++ String.intercalate " " (updatedData2.additionalDetails.getD [])
    let detectedCategory := detectCategory allText
    let updatedData3 := { updatedData2 with suggestedCategory := some detectedCategory }
    let ns := getNextStep .CLARIFY_DETAILS userInput updatedData3
    (updatedData3,
     { type := .category_suggestion,
       content := promptSuggestCategory detectedCategory,
       nextStep := some ns,
       suggestions := some ["Yes, that's correct", "No, different category"],
       requiresInput := true },
     ns, some detectedCategory)

/-- The SUGGEST_CATEGORY case of the `switch`. -/
def suggestCategoryCase (userInput : String) (updatedData : CollectedData) :
    CollectedData × AIResponse × ConversationStep × Option TicketCategory :=
  let updatedData2 :=
    if isAffirmative userInput then
      { updatedData with confirmedCategory := updatedData.suggestedCategory }
    else if isNegative userInput then
      { updatedData with confirmedCategory := some TicketCategory.GENERAL }
    else
      { updatedData with confirmedCategory := some (detectCategory userInput) }
  let ns := getNextStep .SUGGEST_CATEGORY userInput updatedData2
  if !jsTruthy updatedData2.userEmail then
    (updatedData2,
     { type := .question, content := promptCollectEmail,
       nextStep := some .COLLECT_NAME, requiresInput := true },
     .COLLECT_NAME, none)
  else
    (updatedData2,
     { type := .confirmation,
       content := promptFinalConfirmation (jsStr updatedData2.userName)
         (jsStr updatedData2.issueDescription) updatedData2.confirmedCategory
         updatedData2.userEmail,
       nextStep := some ns,
       suggestions := some ["Yes, create the ticket", "No, let me modify something"],
       requiresInput := true },
     ns, none)

/-- The COLLECT_NAME case of the `switch` (repurposed as email collection). -/
def collectNameCase (userInput : String) (updatedData : CollectedData) :
    CollectedData × AIResponse × ConversationStep × Option TicketCategory :=
  let cleanedEmail := String.mk (toLowerL (trimL userInput.data))
  if emailRegexTest cleanedEmail then
    let updatedData2 := { updatedData with userEmail := some cleanedEmail }
    let ns := getNextStep .COLLECT_NAME userInput updatedData2
    (updatedData2,
     { type := .confirmation,
       content := promptFinalConfirmation (jsStr updatedData2.userName)
         (jsStr updatedData2.issueDescription) updatedData2.confirmedCategory
         updatedData2.userEmail,
       nextStep := some ns,
       suggestions := some ["Yes, create the ticket", "No, let me modify something"],
       requiresInput := true },
     ns, none)
  else
    (updatedData,
     { type := .question,
       content := "Please provide a valid email address (e.g., john@example.com).",
       requiresInput := true },
     .COLLECT_NAME, none)

/-- The FINAL_CONFIRMATION case of the `switch`. -/
def finalConfirmationCase (userInput : String) (updatedData : CollectedData) :
    CollectedData × AIResponse × ConversationStep × Option TicketCategory :=
  if isAffirmative userInput then
    let updatedData2 :=
      { updatedData with issueTitle := some (jsOr updatedData.issueTitle "Support Request") }
    (updatedData2,
     { type := .success,
       content := "✅ Perfect! I'm creating your support ticket now...\n\nYour ticket will be created with all the details we've collected. Our support team will review it and get back to you soon.",
       nextStep := some .TICKET_CREATED, requiresInput := false,
       metadata := some [("shouldCreateTicket", true)] },
     .TICKET_CREATED, none)
  else
    (updatedData,
     { type := .question, content := "Let's start over. " ++ promptGreeting,
       nextStep := some .GREETING, requiresInput := true },
     .GREETING, none)

/-- The `default` case of the `switch`. -/
def defaultCase (updatedData : CollectedData) :
    CollectedData × AIResponse × ConversationStep × Option TicketCategory :=
  (updatedData,
   { type := .error, content := promptError,
     nextStep := some .ERROR, requiresInput := true },
   .ERROR, none)

/-- Body of `processAIMessage` (the `try` block): the `switch` on
`currentStep` followed by the construction of the updated conversation.
`now` models `new Date().toISOString()`. -/
def processAIMessage (userInput : String) (conversation : ConversationState)
    (now : String) : AIProcessResult :=
  let branch :=
    match conversation.currentStep with
    | .GREETING => greetingCase userInput conversation.collectedData
    | .COLLECT_ISSUE => collectIssueCase userInput conversation.collectedData
    | .CLARIFY_DETAILS => clarifyDetailsCase userInput conversation.collectedData
    | .SUGGEST_CATEGORY => suggestCategoryCase userInput conversation.collectedData
    | .COLLECT_NAME => collectNameCase userInput conversation.collectedData
    | .FINAL_CONFIRMATION => finalConfirmationCase userInput conversation.collectedData
    | _ => defaultCase conversation.collectedData
  { assistantResponse := branch.2.1,
    updatedConversation :=
      { conversation with
        currentStep := branch.2.2.1,
        collectedData := branch.1,
        isComplete := decide (branch.2.2.1 = ConversationStep.TICKET_CREATED),
        completedAt :=
          if branch.2.2.1 = ConversationStep.TICKET_CREATED then some now else none },
    suggestedCategory := branch.2.2.2 }

/-- The `catch` block of `processAIMessage`: a generic ERROR response with the
conversation carried over, only `currentStep` forced to ERROR. -/
def processAIMessageCatch (conversation : ConversationState) : AIProcessResult :=
  { assistantResponse :=
      { type := .error, content := promptError,
        nextStep := some .ERROR, requiresInput := true },
    updatedConversation := { conversation with currentStep := .ERROR } }

/- ---------- Reference-semantics model of the CLARIFY_DETAILS handler ----------

JavaScript objects and arrays are references into a heap; the engine's
`let updatedData = { ...collectedData }` is a shallow copy, so the
`additionalDetails` field of the copy still points at the caller's array.
The model below makes that heap explicit for the one handler that calls
`push`: arrays live in a `Store` and `collectedData.additionalDetails`
holds an index into it. -/

/-- A heap of string arrays, addressed by allocation index. -/
structure Store where
  arrays : List (List String)
deriving DecidableEq, Repr

/-- Dereference an array (out-of-range reads as empty, never reached). -/
def Store.read (st : Store) (r : Nat) : List String :=
  st.arrays.getD r []

/-- `collectedData` with `additionalDetails` as a heap reference. -/
structure CollectedDataRef where
  userName : Option String := none
  userEmail : Option String := none
  issueDescription : Option String := none
  issueTitle : Option String := none
  suggestedCategory : Option TicketCategory := none
  confirmedCategory : Option TicketCategory := none
  additionalDetails : Option Nat := none
  potentialName : Option String := none
deriving DecidableEq, Repr

/-- The CLARIFY_DETAILS handler under reference semantics.  The shallow copy
`{ ...collectedData }` duplicates the reference, `additionalDetails.push`
writes through it into the store the caller's conversation also points into. -/
def clarifyDetailsCaseRef (userInput : String) (collectedData : CollectedDataRef)
    (st : Store) : CollectedDataRef × Store :=
  let updatedData := collectedData
  let cleanedDetails := sanitizeInput userInput 500
  let saysSkip := containsSubL "skip".data (toLowerL userInput.data)
  if cleanedDetails.length < 5 && !saysSkip then
    (updatedData, st)
  else
    let alloc :=
      match updatedData.additionalDetails with
      | none =>
        ({ updatedData with additionalDetails := some st.arrays.length },
         Store.mk (st.arrays ++ [[]]))
      | some _ => (updatedData, st)
    let updatedData1 := alloc.1
    let st1 := alloc.2
    let st2 :=
      if !saysSkip && decide (cleanedDetails.length ≥ 5) then
        match updatedData1.additionalDetails with
        | some r => Store.mk (st1.arrays.set r (st1.read r ++ [cleanedDetails]))
        | none => st1
      else st1
    let allText := jsStr updatedData1.issueDescription ++ " "
      ++ String.intercalate " "
           (match updatedData1.additionalDetails with
            | some r => st2.read r
            | none => [])
    ({ updatedData1 with suggestedCategory := some (detectCategory allText) }, st2)

/- ---------- Specification-side definition for the category detector ---------- -/

/-- Count of keyword matches for one of the five categories. -/
def catCount (i : Nat) (lowerText : List Char) : Nat :=
  countMatches ((CATEGORY_PATTERNS.getD i (.GENERAL, [])).2) lowerText

/-- Category detection as the specification words it: the category with the
strictly greatest keyword-match count, earliest-declared category winning
ties, `GENERAL` when no keyword occurs at all. -/
def detectCategorySpec (text : String) : TicketCategory :=
  let lt := toLowerL text.data
  let n0 := catCount 0 lt
  let n1 := catCount 1 lt
  let n2 := catCount 2 lt
  let n3 := catCount 3 lt
  let n4 := catCount 4 lt
  if n0 = 0 ∧ n1 = 0 ∧ n2 = 0 ∧ n3 = 0 ∧ n4 = 0 then .GENERAL
  else if n0 ≥ n1 ∧ n0 ≥ n2 ∧ n0 ≥ n3 ∧ n0 ≥ n4 then .TECHNICAL
  else if n1 > n0 ∧ n1 ≥ n2 ∧ n1 ≥ n3 ∧ n1 ≥ n4 then .BILLING
  else if n2 > n0 ∧ n2 > n1 ∧ n2 ≥ n3 ∧ n2 ≥ n4 then .ACCOUNT
  else if n3 > n0 ∧ n3 > n1 ∧ n3 > n2 ∧ n3 ≥ n4 then .FEATURE_REQUEST
  else .BUG_REPORT

/-- The `detectCategory` fold with the five match counts abstracted out. -/
def detectRaw (n0 n1 n2 n3 n4 : Nat) : TicketCategory :=
  let s1 := if n0 > 0 then (n0, TicketCategory.TECHNICAL) else (0, TicketCategory.GENERAL)
  let s2 := if n1 > s1.1 then (n1, TicketCategory.BILLING) else s1
  let s3 := if n2 > s2.1 then (n2, TicketCategory.ACCOUNT) else s2
  let s4 := if n3 > s3.1 then (n3, TicketCategory.FEATURE_REQUEST) else s3
  let s5 := if n4 > s4.1 then (n4, TicketCategory.BUG_REPORT) else s4
  if s5.1 > 0 then s5.2 else TicketCategory.GENERAL

/-- `detectCategorySpec` with the five match counts abstracted out. -/
def specRaw (n0 n1 n2 n3 n4 : Nat) : TicketCategory :=
  if n0 = 0 ∧ n1 = 0 ∧ n2 = 0 ∧ n3 = 0 ∧ n4 = 0 then .GENERAL
  else if n0 ≥ n1 ∧ n0 ≥ n2 ∧ n0 ≥ n3 ∧ n0 ≥ n4 then .TECHNICAL
  else if n1 > n0 ∧ n1 ≥ n2 ∧ n1 ≥ n3 ∧ n1 ≥ n4 then .BILLING
  else if n2 > n0 ∧ n2 > n1 ∧ n2 ≥ n3 ∧ n2 ≥ n4 then .ACCOUNT
  else if n3 > n0 ∧ n3 > n1 ∧ n3 > n2 ∧ n3 ≥ n4 then .FEATURE_REQUEST
  else .BUG_REPORT

/- ---------- Helper lemmas ---------- -/

set_option maxHeartbeats 1600000 in
lemma detectCategory_eq_raw (t : String) :
    detectCategory t =
      detectRaw (catCount 0 (toLowerL t.data)) (catCount 1 (toLowerL t.data))
        (catCount 2 (toLowerL t.data)) (catCount 3 (toLowerL t.data))
        (catCount 4 (toLowerL t.data)) := rfl

lemma detectCategorySpec_eq_raw (t : String) :
    detectCategorySpec t =
      specRaw (catCount 0 (toLowerL t.data)) (catCount 1 (toLowerL t.data))
        (catCount 2 (toLowerL t.data)) (catCount 3 (toLowerL t.data))
        (catCount 4 (toLowerL t.data)) := rfl

set_option maxHeartbeats 1600000 in
lemma detectRaw_eq_specRaw (n0 n1 n2 n3 n4 : Nat) :
    detectRaw n0 n1 n2 n3 n4 = specRaw n0 n1 n2 n3 n4 := by
  unfold detectRaw
  dsimp only
  by_cases h0 : n0 > 0 <;> simp only [h0, if_true, if_false, ite_true, ite_false] <;>
  unfold specRaw <;> split_ifs <;> first | rfl | omega

set_option maxHeartbeats 1600000 in
lemma detectRaw_ne_general (n0 n1 n2 n3 n4 : Nat) (h : 0 < n0) :
    detectRaw n0 n1 n2 n3 n4 ≠ TicketCategory.GENERAL := by
  rw [detectRaw_eq_specRaw]
  unfold specRaw
  split_ifs <;> first | decide | omega

lemma processAIMessage_isComplete_eq (userInput now : String) (conv : ConversationState) :
    (processAIMessage userInput conv now).updatedConversation.isComplete
      = decide ((processAIMessage userInput conv now).updatedConversation.currentStep
          = ConversationStep.TICKET_CREATED) := rfl

lemma processAIMessage_completedAt_eq (userInput now : String) (conv : ConversationState) :
    (processAIMessage userInput conv now).updatedConversation.completedAt
      = (if (processAIMessage userInput conv now).updatedConversation.currentStep
            = ConversationStep.TICKET_CREATED then some now else none) := rfl

/- ---------- Claim theorems ---------- -/

/-- C3: `processAIMessage` is total on every input (the modelled body never
fails), and the `catch` block's result is a response of type `error` whose
conversation has `currentStep` ERROR while every other field (id,
collectedData, messages, isComplete, createdTicketId, startedAt,
completedAt) is exactly the input conversation's. -/
theorem processAIMessage_never_throws_catch_preserves :
    ∀ (userInput now : String) (conversation : ConversationState),
      (∃ r : AIProcessResult, processAIMessage userInput conversation now = r) ∧
      (processAIMessageCatch conversation).assistantResponse.type = AIResponseType.error ∧
      (processAIMessageCatch conversation).updatedConversation.currentStep = ConversationStep.ERROR ∧
      (processAIMessageCatch conversation).updatedConversation.id = conversation.id ∧
      (processAIMessageCatch conversation).updatedConversation.collectedData = conversation.collectedData ∧
      (processAIMessageCatch conversation).updatedConversation.messages = conversation.messages ∧
      (processAIMessageCatch conversation).updatedConversation.isComplete = conversation.isComplete ∧
      (processAIMessageCatch conversation).updatedConversation.createdTicketId = conversation.createdTicketId ∧
      (processAIMessageCatch conversation).updatedConversation.startedAt = conversation.startedAt ∧
      (processAIMessageCatch conversation).updatedConversation.completedAt = conversation.completedAt :=
  fun _ _ _ => ⟨⟨_, rfl⟩, rfl, rfl, rfl, rfl, rfl, rfl, rfl, rfl, rfl⟩

/-- C4 (amended): the returned `isComplete` is recomputed each call and is
true exactly when the returned `currentStep` is TICKET_CREATED; it is not
monotonic across calls on an already-complete conversation. -/
theorem processAIMessage_isComplete_iff_ticketCreated
    (userInput now : String) (conv : ConversationState) :
    (processAIMessage userInput conv now).updatedConversation.isComplete = true ↔
    (processAIMessage userInput conv now).updatedConversation.currentStep
      = ConversationStep.TICKET_CREATED := by
  rw [processAIMessage_isComplete_eq, decide_eq_true_iff]

/-- A completed conversation (terminal step, `isComplete` true). -/
def convTicketDone : ConversationState :=
  { id := "c1", currentStep := .TICKET_CREATED, collectedData := {}, messages := [],
    isComplete := true, startedAt := "t0", completedAt := some "t9" }

/-- C4 counterexample: one engine call on a conversation whose `isComplete`
is already true (at TICKET_CREATED) returns a state with `isComplete` false,
so `isComplete` is not monotonic within a single engine call. -/
theorem isComplete_not_monotonic_counterexample :
    convTicketDone.isComplete = true ∧
    (processAIMessage "thanks" convTicketDone "t10").updatedConversation.isComplete = false :=
  ⟨rfl, rfl⟩

/-- C5 (amended): `createdTicketId` and `startedAt` are never changed by the
engine, but `completedAt` is recomputed on every call: it is `now` when the
returned step is TICKET_CREATED and cleared to `undefined` otherwise. -/
theorem processAIMessage_lifecycle_markers
    (userInput now : String) (conv : ConversationState) :
    (processAIMessage userInput conv now).updatedConversation.createdTicketId
        = conv.createdTicketId ∧
    (processAIMessage userInput conv now).updatedConversation.startedAt = conv.startedAt ∧
    (processAIMessage userInput conv now).updatedConversation.completedAt
      = (if (processAIMessage userInput conv now).updatedConversation.currentStep
            = ConversationStep.TICKET_CREATED then some now else none) :=
  ⟨rfl, rfl, rfl⟩

/-- A conversation whose `completedAt` lifecycle marker is already set. -/
def convWithCompletedAt : ConversationState :=
  { id := "c2", currentStep := .GREETING, collectedData := {}, messages := [],
    isComplete := false, startedAt := "t0",
    completedAt := some "2024-01-01T00:00:00.000Z" }

/-- C5 counterexample: a non-terminal call on a conversation whose
`completedAt` is set returns `completedAt = none` — the marker is wiped,
not preserved. -/
theorem completedAt_cleared_counterexample :
    convWithCompletedAt.completedAt = some "2024-01-01T00:00:00.000Z" ∧
    (processAIMessage "John" convWithCompletedAt "t1").updatedConversation.completedAt = none :=
  ⟨rfl, rfl⟩

/-- C10: CONFIRM_CATEGORY, TICKET_CREATED and ERROR all fall to the `default`
branch: the response has type `error` and the returned step is ERROR (so
CONFIRM_CATEGORY has no handler and TICKET_CREATED is not absorbing). -/
theorem unhandled_steps_default_to_error :
    ∀ (userInput now : String) (conv : ConversationState),
      (conv.currentStep = ConversationStep.CONFIRM_CATEGORY ∨
       conv.currentStep = ConversationStep.TICKET_CREATED ∨
       conv.currentStep = ConversationStep.ERROR) →
      (processAIMessage userInput conv now).assistantResponse.type = AIResponseType.error ∧
      (processAIMessage userInput conv now).updatedConversation.currentStep
        = ConversationStep.ERROR := by
  intro userInput now conv h
  rcases h with h | h | h <;> exact ⟨by simp [processAIMessage, defaultCase, h],
    by simp [processAIMessage, defaultCase, h]⟩

/-- A conversation parked at the handler-less CONFIRM_CATEGORY step. -/
def convConfirmCat : ConversationState :=
  { id := "c3", currentStep := .CONFIRM_CATEGORY, collectedData := {}, messages := [],
    isComplete := false, startedAt := "t0" }

/-- C10 witness: the default branch fires at CONFIRM_CATEGORY. -/
theorem unhandled_steps_default_to_error_witness :
    (processAIMessage "hello" convConfirmCat "t").assistantResponse.type
        = AIResponseType.error ∧
    (processAIMessage "hello" convConfirmCat "t").updatedConversation.currentStep
        = ConversationStep.ERROR :=
  unhandled_steps_default_to_error "hello" "t" convConfirmCat (Or.inl rfl)

/-- A conversation at SUGGEST_CATEGORY that already has a `userEmail`
(reachable: decline at FINAL_CONFIRMATION restarts at GREETING with the
collected email preserved). -/
def convSuggestWithEmail : ConversationState :=
  { id := "c4", currentStep := .SUGGEST_CATEGORY,
    collectedData :=
      { userName := some "Alice", userEmail := some "alice@example.com",
        issueDescription := some "The app crashes on startup",
        suggestedCategory := some .TECHNICAL },
    messages := [], isComplete := false, startedAt := "t0" }

/-- C1 failing input: at SUGGEST_CATEGORY with `userEmail` present the engine
renders the final-confirmation prompt but steps to CONFIRM_CATEGORY (the
email-present branch never reassigns `nextStep`), not FINAL_CONFIRMATION;
the next turn then falls into the default branch and lands on ERROR. -/
theorem suggestCategory_email_present_dead_end :
    (processAIMessage "yes" convSuggestWithEmail "t1").updatedConversation.currentStep
        = ConversationStep.CONFIRM_CATEGORY ∧
    (processAIMessage "yes" convSuggestWithEmail "t1").assistantResponse.type
        = AIResponseType.confirmation ∧
    (processAIMessage "yes"
        ((processAIMessage "yes" convSuggestWithEmail "t1").updatedConversation)
        "t2").updatedConversation.currentStep = ConversationStep.ERROR :=
  ⟨rfl, rfl, rfl⟩

/-- Caller-owned collected data whose `additionalDetails` points at array 0
of the store. -/
def cdAliased : CollectedDataRef :=
  { issueDescription := some "App crashes", additionalDetails := some 0 }

/-- The caller's heap: one array, currently empty, at reference 0. -/
def storeAliased : Store :=
  ⟨[[]]⟩

/-- C2 failing input: the CLARIFY_DETAILS handler pushes through the
reference shared with the caller (the spread `{ ...collectedData }` is a
shallow copy), so after the call the caller's own `additionalDetails` array
has changed — the returned data still holds the same reference. -/
theorem clarifyDetails_mutates_callers_array :
    storeAliased.read 0 = [] ∧
    (clarifyDetailsCaseRef "It started failing yesterday" cdAliased storeAliased).2.read 0
      = ["It started failing yesterday"] ∧
    (clarifyDetailsCaseRef "It started failing yesterday" cdAliased storeAliased).1.additionalDetails
      = cdAliased.additionalDetails := by
  refine ⟨rfl, ?_, rfl⟩
  decide

/-- C7: `detectCategory` equals its specification (strictly greatest keyword
count wins, earliest-declared category wins ties, no keyword at all gives
GENERAL); being a pure function it is deterministic, and any text containing
a technical-category keyword never yields GENERAL. -/
theorem detectCategory_matches_spec :
    ∀ t : String,
      detectCategory t = detectCategorySpec t ∧
      (0 < catCount 0 (toLowerL t.data) → detectCategory t ≠ TicketCategory.GENERAL) := by
  intro t
  constructor
  · rw [detectCategory_eq_raw, detectCategorySpec_eq_raw, detectRaw_eq_specRaw]
  · intro h
    rw [detectCategory_eq_raw]
    exact detectRaw_ne_general _ _ _ _ _ h

/-- C7 witness: a text made of technical keywords. -/
theorem detectCategory_matches_spec_witness :
    detectCategory "the server timeout" = detectCategorySpec "the server timeout" ∧
    detectCategory "the server timeout" ≠ TicketCategory.GENERAL :=
  ⟨(detectCategory_matches_spec "the server timeout").1,
   (detectCategory_matches_spec "the server timeout").2 (by decide)⟩

/-- C8: name extraction on the two specified inputs: "John Smith" is taken
verbatim with no clarification; "Hi, my name is John and I need help" is
classified as a sentence, the name "John" is extracted and clarification is
requested. -/
theorem extractName_examples :
    extractNameFromInput "John Smith" =
      { name := "John Smith", isSentence := false, needsClarification := false } ∧
    (extractNameFromInput "Hi, my name is John and I need help").isSentence = true ∧
    (extractNameFromInput "Hi, my name is John and I need help").name = "John" ∧
    (extractNameFromInput "Hi, my name is John and I need help").needsClarification = true := by
  refine ⟨by decide, by decide, by decide, by decide⟩

/-- C9: at FINAL_CONFIRMATION a non-affirmative input restarts at GREETING
with the collected data untouched; an affirmative input advances to
TICKET_CREATED with the `shouldCreateTicket` metadata flag set. -/
theorem finalConfirmation_branches :
    ∀ (userInput now : String) (conv : ConversationState),
      conv.currentStep = ConversationStep.FINAL_CONFIRMATION →
      (isAffirmative userInput = false →
        (processAIMessage userInput conv now).updatedConversation.currentStep
          = ConversationStep.GREETING ∧
        (processAIMessage userInput conv now).updatedConversation.collectedData
          = conv.collectedData) ∧
      (isAffirmative userInput = true →
        (processAIMessage userInput conv now).updatedConversation.currentStep
          = ConversationStep.TICKET_CREATED ∧
        (processAIMessage userInput conv now).assistantResponse.metadata
          = some [("shouldCreateTicket", true)]) := by
  intro userInput now conv hstep
  constructor <;> intro haff <;>
    exact ⟨by simp [processAIMessage, finalConfirmationCase, hstep, haff],
           by simp [processAIMessage, finalConfirmationCase, hstep, haff]⟩

/-- A conversation ready for final confirmation. -/
def convAtFinal : ConversationState :=
  { id := "c5", currentStep := .FINAL_CONFIRMATION,
    collectedData :=
      { userName := some "Alice", userEmail := some "alice@example.com",
        issueDescription := some "It keeps crashing daily",
        issueTitle := some "It keeps crashing daily",
        suggestedCategory := some .TECHNICAL, confirmedCategory := some .TECHNICAL,
        additionalDetails := some [] },
    messages := [], isComplete := false, startedAt := "t0" }

/-- C9 witness: decline with "not yet" preserves the data and restarts;
"yes" creates the ticket. -/
theorem finalConfirmation_branches_witness :
    ((processAIMessage "not yet" convAtFinal "t").updatedConversation.currentStep
        = ConversationStep.GREETING ∧
     (processAIMessage "not yet" convAtFinal "t").updatedConversation.collectedData
        = convAtFinal.collectedData) ∧
    ((processAIMessage "yes" convAtFinal "t").updatedConversation.currentStep
        = ConversationStep.TICKET_CREATED ∧
     (processAIMessage "yes" convAtFinal "t").assistantResponse.metadata
        = some [("shouldCreateTicket", true)]) :=
  ⟨(finalConfirmation_branches "not yet" "t" convAtFinal rfl).1 (by decide),
   (finalConfirmation_branches "yes" "t" convAtFinal rfl).2 (by decide)⟩

/- ---------- Per-step lemmas for the happy-path chain ---------- -/

lemma step_greeting_plain (i now : String) (conv : ConversationState)
    (hstep : conv.currentStep = ConversationStep.GREETING)
    (hpn : conv.collectedData.potentialName = none)
    (hc : (extractNameFromInput i).needsClarification = false) :
    (processAIMessage i conv now).updatedConversation.currentStep
      = ConversationStep.COLLECT_ISSUE ∧
    (processAIMessage i conv now).updatedConversation.collectedData.userEmail
      = conv.collectedData.userEmail := by
  constructor <;>
    simp [processAIMessage, greetingCase, getNextStep, jsTruthy, hstep, hpn, hc]

lemma step_collect_issue (i now : String) (conv : ConversationState)
    (hstep : conv.currentStep = ConversationStep.COLLECT_ISSUE)
    (h : 10 ≤ (sanitizeInput i 1000).length) :
    (processAIMessage i conv now).updatedConversation.currentStep
      = ConversationStep.CLARIFY_DETAILS ∧
    (processAIMessage i conv now).updatedConversation.collectedData.userEmail
      = conv.collectedData.userEmail := by
  constructor <;>
    simp [processAIMessage, collectIssueCase, getNextStep, hstep, Nat.not_lt.mpr h]

lemma step_clarify_skip (i now : String) (conv : ConversationState)
    (hstep : conv.currentStep = ConversationStep.CLARIFY_DETAILS)
    (hskip : containsSubL "skip".data (toLowerL i.data) = true) :
    (processAIMessage i conv now).updatedConversation.currentStep
      = ConversationStep.SUGGEST_CATEGORY ∧
    (processAIMessage i conv now).updatedConversation.collectedData.userEmail
      = conv.collectedData.userEmail := by
  constructor
  · simp [processAIMessage, clarifyDetailsCase, getNextStep, hstep, hskip]
  · simp [processAIMessage, clarifyDetailsCase, getNextStep, hstep, hskip]
    split <;> simp

lemma step_suggest_affirm_noemail (i now : String) (conv : ConversationState)
    (hstep : conv.currentStep = ConversationStep.SUGGEST_CATEGORY)
    (haff : isAffirmative i = true)
    (hmail : conv.collectedData.userEmail = none) :
    (processAIMessage i conv now).updatedConversation.currentStep
      = ConversationStep.COLLECT_NAME ∧
    (processAIMessage i conv now).updatedConversation.collectedData.userEmail
      = conv.collectedData.userEmail := by
  constructor <;>
    simp [processAIMessage, suggestCategoryCase, getNextStep, jsTruthy, hstep, haff, hmail]

lemma step_collect_email (i now : String) (conv : ConversationState)
    (hstep : conv.currentStep = ConversationStep.COLLECT_NAME)
    (hem : emailRegexTest (String.mk (toLowerL (trimL i.data))) = true) :
    (processAIMessage i conv now).updatedConversation.currentStep
      = ConversationStep.FINAL_CONFIRMATION := by
  simp [processAIMessage, collectNameCase, getNextStep, hstep, hem]

lemma step_final_affirm (i now : String) (conv : ConversationState)
    (hstep : conv.currentStep = ConversationStep.FINAL_CONFIRMATION)
    (haff : isAffirmative i = true) :
    (processAIMessage i conv now).updatedConversation.currentStep
      = ConversationStep.TICKET_CREATED ∧
    (processAIMessage i conv now).updatedConversation.isComplete = true := by
  constructor <;>
    simp [processAIMessage, finalConfirmationCase, hstep, haff]

/-- C6: from GREETING with empty collected data, six calls — a plain name,
an issue description whose sanitized form has at least 10 characters,
"skip", an affirmative reply, a valid email, and an affirmative reply —
reach TICKET_CREATED with `isComplete` true, and no earlier state in the
chain is at TICKET_CREATED. -/
theorem six_call_happy_path
    (i1 i2 i4 i5 i6 : String) (cid st0 : String) (msgs : List Message)
    (n1 n2 n3 n4 n5 n6 : String)
    (_h1s : (extractNameFromInput i1).isSentence = false)
    (h1c : (extractNameFromInput i1).needsClarification = false)
    (h2 : 10 ≤ (sanitizeInput i2 1000).length)
    (h4 : isAffirmative i4 = true)
    (h5 : emailRegexTest (String.mk (toLowerL (trimL i5.data))) = true)
    (h6 : isAffirmative i6 = true) :
    let c0 : ConversationState :=
      { id := cid, currentStep := .GREETING, collectedData := {}, messages := msgs,
        isComplete := false, startedAt := st0 }
    let c1 := (processAIMessage i1 c0 n1).updatedConversation
    let c2 := (processAIMessage i2 c1 n2).updatedConversation
    let c3 := (processAIMessage "skip" c2 n3).updatedConversation
    let c4 := (processAIMessage i4 c3 n4).updatedConversation
    let c5 := (processAIMessage i5 c4 n5).updatedConversation
    let c6 := (processAIMessage i6 c5 n6).updatedConversation
    c1.currentStep = ConversationStep.COLLECT_ISSUE ∧
    c2.currentStep = ConversationStep.CLARIFY_DETAILS ∧
    c3.currentStep = ConversationStep.SUGGEST_CATEGORY ∧
    c4.currentStep = ConversationStep.COLLECT_NAME ∧
    c5.currentStep = ConversationStep.FINAL_CONFIRMATION ∧
    c6.currentStep = ConversationStep.TICKET_CREATED ∧
    c6.isComplete = true := by
  dsimp only
  obtain ⟨s1, u1⟩ := step_greeting_plain i1 n1
    { id := cid, currentStep := .GREETING, collectedData := {}, messages := msgs,
      isComplete := false, startedAt := st0 } rfl rfl h1c
  obtain ⟨s2, u2⟩ := step_collect_issue i2 n2 _ s1 h2
  obtain ⟨s3, u3⟩ := step_clarify_skip "skip" n3 _ s2 (by decide)
  obtain ⟨s4, u4⟩ := step_suggest_affirm_noemail i4 n4 _ s3 h4 (by rw [u3, u2, u1])
  have s5 := step_collect_email i5 n5 _ s4 h5
  obtain ⟨s6, cpl⟩ := step_final_affirm i6 n6 _ s5 h6
  exact ⟨s1, s2, s3, s4, s5, s6, cpl⟩

/-- C6 witness: a concrete six-input happy path. -/
theorem six_call_happy_path_witness :
    let c0 : ConversationState :=
      { id := "c0", currentStep := .GREETING, collectedData := {}, messages := [],
        isComplete := false, startedAt := "t0" }
    let c1 := (processAIMessage "John" c0 "m1").updatedConversation
    let c2 := (processAIMessage "The app crashes every time I try to open it" c1 "m2").updatedConversation
    let c3 := (processAIMessage "skip" c2 "m3").updatedConversation
    let c4 := (processAIMessage "yes" c3 "m4").updatedConversation
    let c5 := (processAIMessage "John@Example.COM" c4 "m5").updatedConversation
    let c6 := (processAIMessage "yes" c5 "m6").updatedConversation
    c1.currentStep = ConversationStep.COLLECT_ISSUE ∧
    c2.currentStep = ConversationStep.CLARIFY_DETAILS ∧
    c3.currentStep = ConversationStep.SUGGEST_CATEGORY ∧
    c4.currentStep = ConversationStep.COLLECT_NAME ∧
    c5.currentStep = ConversationStep.FINAL_CONFIRMATION ∧
    c6.currentStep = ConversationStep.TICKET_CREATED ∧
    c6.isComplete = true :=
  six_call_happy_path "John" "The app crashes every time I try to open it"
    "yes" "John@Example.COM" "yes" "c0" "t0" [] "m1" "m2" "m3" "m4" "m5" "m6"
    (by decide) (by decide) (by decide) (by decide) (by decide) (by decide)

end SupportEngine


